import Mathlib

/-!
Verification development for the pip-man-GUI repository.

We give a shallow embedding of the non-GUI core of the repository:
the coordinator `services/app_logic.py` (class `AppLogic`), the gateway
`services/pip_service.py` (class `PipService`) and the size-cache store
`services/cache_service.py`.  External effects (subprocess results, the
network probe, package metadata, the cache file) are inputs of the
embedded functions; UI callbacks (`GLib.idle_add` targets) are recorded
as explicit fields of the coordinator state.  Threads are sequentialized:
a worker body is a function of the state at the moment it runs, which is
how mid-flight interleavings (for example a package removed while its
size is computed) are expressed.
-/

namespace PipMan

/-- `models/package.py`: dataclass `Package` with its defaulted fields. -/
structure Package where
  name : String
  version : String
  latest_version : String := ""
  size_str : String := "..."
  size_bytes : Nat := 0
deriving DecidableEq, Repr

/-- Python `dict` assignment `d[k] = v` on an insertion-ordered association
list: replace the value in place when the key exists, else append. -/
def setKey (l : List (String × α)) (k : String) (v : α) : List (String × α) :=
  if (l.lookup k).isSome then
    l.map (fun p => if p.1 = k then (k, v) else p)
  else l ++ [(k, v)]

/-- Python `del d[k]` on an insertion-ordered association list (keys are
unique in a `dict`, so filtering the key out is the removal). -/
def eraseKey (l : List (String × α)) (k : String) : List (String × α) :=
  l.filter (fun p => p.1 ≠ k)

/-- State of `AppLogic` (`services/app_logic.py`) together with the
observable effects of its UI callbacks and external calls:
`ui_log_lines` records `log_output` callbacks as (message, is_header),
`ui_busy` the last `set_busy` callback, `total_size_label` the last
`set_total_size_label` text, `row_updates` the `update_package_view`
calls, `disk_cache` the current content of the persisted size-cache file,
`commands_run` the subprocess invocations issued through the gateway,
`load_packages_calls` how many times `load_packages` was entered, and
`spawned_workers` the background threads that were started but whose
bodies are not expanded at the point of spawning. -/
structure AppState where
  is_busy : Bool
  packages_data : List (String × Package)
  size_cache : List (String × String)
  active_size_calculations : Int
  ui_log_lines : List (String × Bool)
  ui_busy : Bool
  total_size_label : String
  row_updates : List String
  disk_cache : List (String × String)
  commands_run : List (List String)
  load_packages_calls : Nat
  spawned_workers : List String
deriving DecidableEq, Repr

/-- `AppLogic._ui_log`: queue a log line to the UI. -/
def ui_log (message : String) (is_header : Bool) (s : AppState) : AppState :=
  { s with ui_log_lines := s.ui_log_lines ++ [(message, is_header)] }

/-- `AppLogic._begin_operation`: under `_main_lock`, fail (returning
`false` and logging a message) when already busy, otherwise set the busy
flag, notify the UI and log the operation name when nonempty. -/
def _begin_operation (operation_name : String) (is_header : Bool) (s : AppState) :
    Bool × AppState :=
  if s.is_busy then
    (false, ui_log "Operation already in progress. Please wait." false s)
  else
    let s1 : AppState := { s with is_busy := true, ui_busy := true }
    (true, if operation_name ≠ "" then ui_log operation_name is_header s1 else s1)

/-- `AppLogic._end_operation`: clear the busy flag and notify the UI. -/
def _end_operation (s : AppState) : AppState :=
  { s with is_busy := false, ui_busy := false }

/-! ### A model of the `json` stdlib calls used by the repository

`cache_service.py` writes the size cache with `json.dump(cache, f, indent=2)`
and reads it with `json.load`; `pip_service.py` parses tool output with
`json.loads`.  All JSON documents the program reads or writes are flat
objects with string values, or arrays of such objects, so the model
implements exactly that sublanguage: the serializer reproduces CPython's
output for such data byte for byte (`ensure_ascii=True` escaping,
`indent=2`), and the reader is a recursive-descent reader for the same
shapes returning `none` where `json.load` would raise `JSONDecodeError`.
(Recombination of `\uXXXX` surrogate pairs into astral-plane characters is
not modelled; no data the program writes contains them.) -/

/-- Lowercase hexadecimal digit, as in CPython's `'\\u%04x' % ord`. -/
def hexDigitCh (n : Nat) : Char :=
  if n < 10 then Char.ofNat (48 + n) else Char.ofNat (87 + n)

/-- Four-digit lowercase hexadecimal rendering of `n < 0x10000`. -/
def hex4 (n : Nat) : List Char :=
  [hexDigitCh (n / 4096 % 16), hexDigitCh (n / 256 % 16),
   hexDigitCh (n / 16 % 16), hexDigitCh (n % 16)]

/-- CPython `json` escaping of one character with `ensure_ascii=True`:
named escapes for `\\`, `"`, and the usual control characters, `\uXXXX`
for every other character outside printable ASCII (surrogate pairs beyond
the basic plane). -/
def escChar (c : Char) : List Char :=
  if c = '\\' then ['\\', '\\']
  else if c = '"' then ['\\', '"']
  else if c = '\n' then ['\\', 'n']
  else if c = '\t' then ['\\', 't']
  else if c = '\r' then ['\\', 'r']
  else if c.toNat = 8 then ['\\', 'b']
  else if c.toNat = 12 then ['\\', 'f']
  else if c.toNat < 32 ∨ 126 < c.toNat then
    if c.toNat < 65536 then '\\' :: 'u' :: hex4 c.toNat
    else
      ('\\' :: 'u' :: hex4 (55296 + (c.toNat - 65536) / 1024)) ++
        ('\\' :: 'u' :: hex4 (56320 + (c.toNat - 65536) % 1024))
  else [c]

/-- Escape a whole character list. -/
def escString (l : List Char) : List Char :=
  l.foldr (fun c acc => escChar c ++ acc) []

/-- A JSON string literal: `"` + escaped content + `"`. -/
def quoteJson (s : String) : List Char :=
  '"' :: (escString s.data ++ ['"'])

/-- One `indent=2` object member line: two spaces, key, `: `, value. -/
def memberChars (k v : String) : List Char :=
  ' ' :: ' ' :: (quoteJson k ++ ':' :: ' ' :: quoteJson v)

/-- The member lines of `json.dump(m, indent=2)`, joined by `",\n"`. -/
def dumpMembers : List (String × String) → List Char
  | [] => []
  | [(k, v)] => memberChars k v
  | (k, v) :: rest => memberChars k v ++ ',' :: '\n' :: dumpMembers rest

/-- The exact character stream `json.dump(m, f, indent=2)` writes for a
string-valued object `m` (in the insertion order of the dict). -/
def dumpObjChars (m : List (String × String)) : List Char :=
  match m with
  | [] => ['{', '}']
  | _ => '{' :: '\n' :: (dumpMembers m ++ '\n' :: ['}'])

/-- JSON whitespace. -/
def isJsonWs (c : Char) : Bool :=
  c = ' ' || c = '\t' || c = '\n' || c = '\r'

/-- Drop leading JSON whitespace. -/
def skipWs : List Char → List Char
  | [] => []
  | c :: cs => if isJsonWs c then skipWs cs else c :: cs

/-- Value of one hexadecimal digit. -/
def hexVal (c : Char) : Option Nat :=
  if 48 ≤ c.toNat ∧ c.toNat ≤ 57 then some (c.toNat - 48)
  else if 97 ≤ c.toNat ∧ c.toNat ≤ 102 then some (c.toNat - 87)
  else if 65 ≤ c.toNat ∧ c.toNat ≤ 70 then some (c.toNat - 55)
  else none

/-- The named single-character JSON escapes. -/
def unescCh (e : Char) : Option Char :=
  if e = '"' then some '"'
  else if e = '\\' then some '\\'
  else if e = '/' then some '/'
  else if e = 'b' then some (Char.ofNat 8)
  else if e = 'f' then some (Char.ofNat 12)
  else if e = 'n' then some '\n'
  else if e = 'r' then some '\r'
  else if e = 't' then some '\t'
  else none

/-- Read the body of a JSON string literal (the opening `"` already
consumed); returns the decoded content and the remaining input. -/
def readStrBody : List Char → Option (List Char × List Char)
  | [] => none
  | c :: rest =>
    if c = '"' then some ([], rest)
    else if c = '\\' then
      match rest with
      | [] => none
      | e :: rest1 =>
        if e = 'u' then
          match rest1 with
          | a :: b :: c2 :: d :: rest2 => do
              let va ← hexVal a
              let vb ← hexVal b
              let vc ← hexVal c2
              let vd ← hexVal d
              let (s, r) ← readStrBody rest2
              some (Char.ofNat (va * 4096 + vb * 256 + vc * 16 + vd) :: s, r)
          | _ => none
        else do
          let ch ← unescCh e
          let (s, r) ← readStrBody rest1
          some (ch :: s, r)
    else do
      let (s, r) ← readStrBody rest
      some (c :: s, r)

/-- Read a JSON string literal at the head of the input. -/
def readJStr (cs : List Char) : Option (String × List Char) :=
  match cs with
  | '"' :: rest => (readStrBody rest).map (fun p => (⟨p.1⟩, p.2))
  | _ => none

/-- Read the members of a string-valued object, the input positioned at
the first key, through the closing `}`; `fuel` bounds the member count. -/
def readMembers : Nat → List Char → Option (List (String × String) × List Char)
  | 0, _ => none
  | fuel + 1, cs => do
      let (k, r1) ← readJStr (skipWs cs)
      match skipWs r1 with
      | ':' :: r3 => do
          let (v, r4) ← readJStr (skipWs r3)
          match skipWs r4 with
          | ',' :: r6 => do
              let (rest, r7) ← readMembers fuel r6
              some ((k, v) :: rest, r7)
          | '}' :: r6 => some ([(k, v)], r6)
          | _ => none
      | _ => none

/-- CPython `dict` construction from parsed members: later duplicate keys
overwrite earlier ones in place. -/
def dictFold (l : List (String × String)) : List (String × String) :=
  l.foldl (fun acc p => setKey acc p.1 p.2) []

/-- `json.load`/`json.loads` restricted to one string-valued object
document: `none` where CPython raises `JSONDecodeError`. -/
def readObjDoc (cs : List Char) : Option (List (String × String)) :=
  match skipWs cs with
  | '{' :: r =>
      if (skipWs r).head? = some '}' then
        if (skipWs (skipWs r).tail).isEmpty then some [] else none
      else
        match readMembers (cs.length + 1) (skipWs r) with
        | some (m, r2) => if (skipWs r2).isEmpty then some (dictFold m) else none
        | none => none
  | _ => none

/-- Decidable form of "every character is printable ASCII", the character
range the program's cache contents (package names and formatted size
strings) live in. -/
def printableAscii (s : String) : Bool :=
  s.data.all (fun c => decide (32 ≤ c.toNat) && decide (c.toNat ≤ 126))

/-- Read one object inside an array, the input positioned just after the
object's `{`. -/
def readObjAfterBrace (fuel : Nat) (cs : List Char) :
    Option (List (String × String) × List Char) :=
  match skipWs cs with
  | '}' :: r => some ([], r)
  | r1 => readMembers fuel r1

/-- Read the items of an array of string-valued objects, the input
positioned just after `[`, through the closing `]`. -/
def readArrItems : Nat → List Char → Option (List (List (String × String)) × List Char)
  | 0, _ => none
  | fuel + 1, cs =>
    match skipWs cs with
    | ']' :: r => some ([], r)
    | '{' :: r => do
        let (o, r1) ← readObjAfterBrace fuel r
        match skipWs r1 with
        | ',' :: r2 => do
            let (os, r3) ← readArrItems fuel r2
            some (dictFold o :: os, r3)
        | ']' :: r2 => some ([dictFold o], r2)
        | _ => none
    | _ => none

/-- `json.loads` restricted to one array-of-string-valued-objects
document, the shape of `pip list --format=json` output. -/
def readArrDoc (s : String) : Option (List (List (String × String))) :=
  match skipWs s.data with
  | '[' :: r =>
      match skipWs r with
      | ']' :: r2 => if (skipWs r2).isEmpty then some [] else none
      | _ =>
          match readArrItems (s.data.length + 1) r with
          | some (os, r2) => if (skipWs r2).isEmpty then some os else none
          | none => none
  | _ => none

/-! ### Size cache store: `services/cache_service.py` -/

/-- `save_size_cache`: the file content written by
`json.dump(cache_data, f, indent=2)` (under `_cache_save_lock`; an
`IOError` is printed, not propagated, so the model returns the content
the successful write produces). -/
def save_size_cache (cache_data : List (String × String)) : String :=
  ⟨dumpObjChars cache_data⟩

/-- `load_size_cache`: `none` models a file that is absent or unreadable
(`CACHE_FILE.exists()` false, or `IOError`), in which case the empty
mapping is returned; otherwise the file content is read with `json.load`,
and a `json.JSONDecodeError` also yields the empty mapping. -/
def load_size_cache (file : Option String) : List (String × String) :=
  match file with
  | none => []
  | some content => (readObjDoc content.data).getD []

/-! ### Gateway: `services/pip_service.py` -/

/-- Round half to even of the exact quotient `a / b` (the rounding CPython
applies when formatting with `:.1f` / `:.2f`; in the ranges the program
reaches, the intermediate `float` division by a power of 1024 is exact, so
formatting rounds the exact rational half-to-even). -/
def rne (a b : Nat) : Nat :=
  let q := a / b
  let r := a % b
  if 2 * r < b then q
  else if b < 2 * r then q + 1
  else if q % 2 = 0 then q else q + 1

/-- Two fractional digits as printed by `:.2f` (zero-padded on the left). -/
def twoDec (n : Nat) : String :=
  if n < 10 then "0" ++ toString n else toString n

/-- The per-package size formatting of `PipService.get_package_size`
(`services/pip_service.py` lines 106-118), including the
`if total_size == 0: return 0, "0 B"` short-circuit just above it. -/
def format_package_size (total_size : Nat) : String :=
  if total_size = 0 then "0 B"
  else if total_size < 1024 then toString total_size ++ " B"
  else if total_size < 1024 ^ 2 then
    toString (rne (total_size * 10) 1024 / 10) ++ "." ++
      toString (rne (total_size * 10) 1024 % 10) ++ " KB"
  else if total_size < 1024 ^ 2 * 999 then
    toString (rne (total_size * 100) (1024 ^ 2) / 100) ++ "." ++
      twoDec (rne (total_size * 100) (1024 ^ 2) % 100) ++ " MB"
  else
    toString (rne (total_size * 100) (1024 ^ 3) / 100) ++ "." ++
      twoDec (rne (total_size * 100) (1024 ^ 3) % 100) ++ " GB"

/-- Outcome of the `importlib.metadata` file enumeration inside
`PipService.get_package_size`: the metadata lookup may raise
`PackageNotFoundError`, any step may raise some other exception, or it
yields the package's file list, each entry carrying the result of
`abs_path.is_file()` and `abs_path.stat().st_size`. -/
inductive MetaFilesResult where
  | notFound
  | exc
  | filesOf (files : List (Bool × Nat))
deriving DecidableEq, Repr

/-- `PipService.get_package_size`: sums the sizes of the entries that are
regular files and formats the total; `(0, "Not Found")` when the metadata
cannot be located, `(0, "Error")` on any other failure, `(0, "0 B")` when
the file list is empty/falsy or the total is zero. -/
def get_package_size (r : MetaFilesResult) : Nat × String :=
  match r with
  | .notFound => (0, "Not Found")
  | .exc => (0, "Error")
  | .filesOf files =>
    let total_size := (files.filter (fun p => p.1)).foldl (fun a p => a + p.2) 0
    if files.isEmpty then (0, "0 B")
    else if total_size = 0 then (0, "0 B")
    else (total_size, format_package_size total_size)

/-- Outcome of a `subprocess.Popen` streaming invocation, as consumed by
`PipService.run_command`: the process ran to completion with a return
code after emitting some output lines, the executable was missing
(`FileNotFoundError`), or some other exception was raised. -/
inductive ProcResult where
  | ok (returncode : Int) (lines : List String)
  | fileNotFound
  | exc (msg : String)
deriving DecidableEq, Repr

/-- Outcome of a `subprocess.run` invocation: completion with a return
code and captured stdout, a missing executable (`FileNotFoundError`), an
expired `timeout=` bound (`subprocess.TimeoutExpired`), or some other
exception. -/
inductive RunResult where
  | ok (returncode : Int) (stdout : String)
  | fileNotFound
  | timeout
  | exc (msg : String)
deriving DecidableEq, Repr

/-- The Python exceptions that can escape a gateway call. -/
inductive PyExc where
  | fileNotFound
  | calledProcessError (returncode : Int)
  | timeoutExpired
  | jsonDecodeError
  | other (msg : String)
deriving DecidableEq, Repr

/-- `PipService.get_local_packages`: `subprocess.run(['pip', 'list',
'--user', '--format=json'], ..., check=True)` followed by
`json.loads(proc_all.stdout or '[]')`.  There is no `try` here:
`check=True` turns a non-zero exit into a raised `CalledProcessError`, a
missing executable raises `FileNotFoundError`, and malformed stdout
raises `JSONDecodeError` — all of them propagate to the caller, which
this model expresses in the `Except` result. -/
def get_local_packages (r : RunResult) : Except PyExc (List (List (String × String))) :=
  match r with
  | .fileNotFound => .error .fileNotFound
  | .timeout => .error .timeoutExpired
  | .exc m => .error (.other m)
  | .ok returncode stdout =>
    if returncode ≠ 0 then .error (.calledProcessError returncode)
    else
      match readArrDoc (if stdout = "" then "[]" else stdout) with
      | some packages => .ok packages
      | none => .error .jsonDecodeError

/-- Extraction of `{p['name']: p['latest_version'] for p in ...}` in
`PipService.get_outdated_packages`: `none` models the `KeyError` a
missing field would raise (caught by the surrounding `except`). -/
def outdatedPairs (objs : List (List (String × String))) :
    Option (List (String × String)) :=
  match objs with
  | [] => some []
  | o :: rest => do
      let n ← o.lookup "name"
      let lv ← o.lookup "latest_version"
      let tail ← outdatedPairs rest
      some ((n, lv) :: tail)

/-- `PipService.get_outdated_packages`.  `has_internet` is the outcome of
`_has_internet_connection` (the 3-second socket probe to 8.8.8.8:53,
whose own failures are caught and returned as `False`); `r` is the
outcome of the 15-second-bounded `pip list --user --outdated
--format=json` run with `check=False`.  Returns the (info dict, status
message) pair; the ghost flag `tool_invoked` records whether the
subprocess was consulted at all.  Note that with `check=False` a non-zero
exit raises nothing: the `if proc_outdated.returncode == 0 and
proc_outdated.stdout` guard is simply skipped, leaving the empty dict and
a `None` status. -/
def get_outdated_packages (has_internet : Bool) (r : RunResult) :
    (List (String × String) × Option String) × Bool :=
  if !has_internet then
    (([], some "Offline: Skipping check for outdated packages."), false)
  else
    match r with
    | .timeout => (([], some "Network Timeout: Could not check for updates."), true)
    | .fileNotFound =>
        (([], some ("Network Error: Could not fetch updates. Details: " ++
          "FileNotFoundError")), true)
    | .exc m =>
        (([], some ("Network Error: Could not fetch updates. Details: " ++ m)), true)
    | .ok returncode stdout =>
      if returncode = 0 ∧ stdout ≠ "" then
        match readArrDoc (if stdout = "" then "[]" else stdout) with
        | none =>
            (([], some ("Network Error: Could not fetch updates. Details: " ++
              "JSONDecodeError")), true)
        | some objs =>
          match outdatedPairs objs with
          | none =>
              (([], some ("Network Error: Could not fetch updates. Details: " ++
                "KeyError")), true)
          | some pairs => ((dictFold pairs, none), true)
      else (([], none), true)

/-- `PipService.check_dependencies`: `pip check` with `check=False`; the
combined output is returned with the exit code, a missing executable or
other exception becomes a `(-1, message)` sentinel. -/
def check_dependencies (r : RunResult) : Int × String :=
  match r with
  | .ok returncode output => (returncode, output)
  | .fileNotFound => (-1, "FATAL ERROR: 'pip' command not found.")
  | .timeout => (-1, "An unexpected error occurred: TimeoutExpired")
  | .exc m => (-1, "An unexpected error occurred: " ++ m)

/-- `PipService.run_command`: `subprocess.Popen` with combined streams,
each output line streamed to the log callback (which for every caller in
`app_logic.py` is `AppLogic._ui_log`), then `(returncode, "")`; a missing
executable or any other exception is caught and becomes a `(-1, message)`
sentinel with the message logged.  The invocation itself is recorded in
`commands_run`. -/
def run_command (command_list : List String) (r : ProcResult) (s : AppState) :
    (Int × String) × AppState :=
  let s0 : AppState := { s with commands_run := s.commands_run ++ [command_list] }
  match r with
  | .ok returncode lines =>
      ((returncode, ""), lines.foldl (fun st line => ui_log line false st) s0)
  | .fileNotFound =>
      let err_msg := "FATAL ERROR: '" ++ command_list.headD "" ++
        "' command not found. Is pip installed and in your PATH?"
      ((-1, err_msg), ui_log err_msg false s0)
  | .exc e =>
      let err_msg := "An unexpected error occurred: " ++ e
      ((-1, err_msg), ui_log err_msg false s0)

/-! ### Coordinator: `services/app_logic.py` -/

/-- `AppLogic._ui_set_total_size_label`. -/
def _ui_set_total_size_label (text : String) (s : AppState) : AppState :=
  { s with total_size_label := text }

/-- `AppLogic._ui_update_package_view`. -/
def _ui_update_package_view (pkg_name : String) (s : AppState) : AppState :=
  { s with row_updates := s.row_updates ++ [pkg_name] }

/-- The display text built by `AppLogic._calculate_and_display_total_size`
(note its tiers differ from the gateway's per-package formatter: `.2f`
kilobytes, and the megabyte tier extends to 1024³). -/
def total_size_display (total_bytes : Nat) : String :=
  if total_bytes < 1024 then "Total Size: " ++ toString total_bytes ++ " B"
  else if total_bytes < 1024 ^ 2 then
    "Total Size: " ++ toString (rne (total_bytes * 100) 1024 / 100) ++ "." ++
      twoDec (rne (total_bytes * 100) 1024 % 100) ++ " KB"
  else if total_bytes < 1024 ^ 3 then
    "Total Size: " ++ toString (rne (total_bytes * 100) (1024 ^ 2) / 100) ++ "." ++
      twoDec (rne (total_bytes * 100) (1024 ^ 2) % 100) ++ " MB"
  else
    "Total Size: " ++ toString (rne (total_bytes * 100) (1024 ^ 3) / 100) ++ "." ++
      twoDec (rne (total_bytes * 100) (1024 ^ 3) % 100) ++ " GB"

/-- `AppLogic._calculate_and_display_total_size`: sum `size_bytes` over
the package table and push the formatted total to the UI label. -/
def _calculate_and_display_total_size (s : AppState) : AppState :=
  _ui_set_total_size_label
    (total_size_display (s.packages_data.foldl (fun a p => a + p.2.size_bytes) 0)) s

/-- `AppLogic._adjust_ui_for_ongoing_calculations` (under
`_size_calculation_lock`): on start, increment the counter and switch the
label to "Calculating..." when it becomes 1; on finish, decrement, and
when it reaches 0 compute and display the final total, log the completion
line, and call `_end_operation()` — unconditionally. -/
def _adjust_ui_for_ongoing_calculations (calculation_starting : Bool)
    (s : AppState) : AppState :=
  if calculation_starting then
    let s1 : AppState :=
      { s with active_size_calculations := s.active_size_calculations + 1 }
    if s1.active_size_calculations = 1 then
      _ui_set_total_size_label "Total Size: Calculating..." s1
    else s1
  else
    let s1 : AppState :=
      { s with active_size_calculations := s.active_size_calculations - 1 }
    if s1.active_size_calculations = 0 then
      _end_operation
        (ui_log "All package sizes calculated and updated." false
          (_calculate_and_display_total_size s1))
    else s1

/-- `AppLogic.load_packages` up to the spawn of `_initial_load_worker`
(whose body runs later on a background thread and is not expanded at the
spawn site): begin the operation (a log line and nothing else when
already busy), reset the total-size label, start the worker.  The ghost
counter `load_packages_calls` records that the method was entered. -/
def load_packages (s : AppState) : AppState :=
  let s0 : AppState := { s with load_packages_calls := s.load_packages_calls + 1 }
  match _begin_operation "Refreshing package list" true s0 with
  | (false, s1) => s1
  | (true, s1) =>
      let s2 := _ui_set_total_size_label "Total Size: ..." s1
      { s2 with spawned_workers := s2.spawned_workers ++ ["_initial_load_worker"] }

/-- The worker body of `AppLogic._run_pip_command_threaded`:
run the command; on exit code 0 log success, invoke the finish callback
when present (for install/update/uninstall that callback is
`load_packages`, which `has_callback` models), and per the `finally`
clause call `_end_operation()` only when the run failed or there is no
callback; when the run succeeded and the command mentions "cache", spawn
the cache-size display worker. -/
def run_pip_worker (command_list : List String) (operation_name : String)
    (has_callback : Bool) (r : ProcResult) (s : AppState) : AppState :=
  let res := run_command command_list r s
  let s1 := res.2
  if res.1.1 = 0 then
    let s2 := ui_log ("Success: " ++ operation_name ++ " completed.") false s1
    let s3 := if has_callback then load_packages s2 else s2
    let s4 := if has_callback then s3 else _end_operation s3
    if command_list.contains "cache" then
      { s4 with spawned_workers := s4.spawned_workers ++
          ["_update_cache_size_display_worker"] }
    else s4
  else
    _end_operation
      (ui_log ("Error: '" ++ operation_name ++ "' failed (code " ++
        toString res.1.1 ++ "). See log for details.") false s1)

/-- `AppLogic._run_pip_command_threaded`: begin the operation (stopping
with only the "already in progress" log line when busy), then run the
worker body. -/
def _run_pip_command_threaded (command_list : List String)
    (operation_name : String) (has_callback : Bool) (r : ProcResult)
    (s : AppState) : AppState :=
  match _begin_operation ("Starting: " ++ operation_name) true s with
  | (false, s1) => s1
  | (true, s1) => run_pip_worker command_list operation_name has_callback r s1

/-- `AppLogic.install_package`: reject an empty name with a log line,
otherwise run `pip install --user <name>` with `_on_install_success`
(which calls `load_packages`) as the finish callback. -/
def install_package (package_name : String) (r : ProcResult) (s : AppState) :
    AppState :=
  if package_name = "" then ui_log "Please enter a package name." false s
  else
    _run_pip_command_threaded ["pip", "install", "--user", package_name]
      ("Install '" ++ package_name ++ "'") true r s

/-- `AppLogic.update_package`: drop the in-memory cached size for the
package (no save), then run the upgrade command with `load_packages` as
the finish callback. -/
def update_package (pkg_name : String) (r : ProcResult) (s : AppState) :
    AppState :=
  let s1 : AppState :=
    if (s.size_cache.lookup pkg_name).isSome then
      { s with size_cache := eraseKey s.size_cache pkg_name }
    else s
  _run_pip_command_threaded ["pip", "install", "--user", "--upgrade", pkg_name]
    ("Update '" ++ pkg_name ++ "'") true r s1

/-- The cache-invalidation prefix of `AppLogic.uninstall_package` (lines
130-133): when the package has a cached size, delete the entry and
persist the cache, before anything else happens. -/
def uninstall_cache_invalidate (pkg_name : String) (s : AppState) : AppState :=
  if (s.size_cache.lookup pkg_name).isSome then
    let c := eraseKey s.size_cache pkg_name
    { s with size_cache := c, disk_cache := c }
  else s

/-- `AppLogic.uninstall_package`: the cache invalidation above, then
`pip uninstall -y <name>` with `load_packages` as the finish callback. -/
def uninstall_package (pkg_name : String) (r : ProcResult) (s : AppState) :
    AppState :=
  _run_pip_command_threaded ["pip", "uninstall", "-y", pkg_name]
    ("Uninstall '" ++ pkg_name ++ "'") true r
    (uninstall_cache_invalidate pkg_name s)

/-- The worker body of `AppLogic.calculate_size_for_package`, applied to
the coordinator state at the moment the worker runs (so a package removed
between the spawn and the write-back is simply absent from
`packages_data` here): log the start line, compute the size, and under
`_main_lock` either discard the result as cancelled when the package is
gone, or write the size into the record, the cache and the cache file and
notify the row; in both cases finish with the counter decrement. -/
def calculate_size_worker (pkg_name : String) (r : MetaFilesResult)
    (s : AppState) : AppState :=
  let s0 := ui_log ("Calculating size for '" ++ pkg_name ++ "'...") false s
  let res := get_package_size r
  match s0.packages_data.lookup pkg_name with
  | none =>
      _adjust_ui_for_ongoing_calculations false
        (ui_log ("Calculation for '" ++ pkg_name ++ "' cancelled (package removed).")
          false s0)
  | some _ =>
      let s1 : AppState :=
        { s0 with packages_data := s0.packages_data.map (fun p =>
            if p.1 = pkg_name then
              (p.1, { p.2 with size_bytes := res.1, size_str := res.2 })
            else p) }
      let s2 : AppState := { s1 with size_cache := setKey s1.size_cache pkg_name res.2 }
      let s3 : AppState := { s2 with disk_cache := s2.size_cache }
      let s5 := ui_log ("Size for '" ++ pkg_name ++ "': " ++ res.2) false
        (_ui_update_package_view pkg_name s3)
      _adjust_ui_for_ongoing_calculations false s5

/-- `AppLogic.calculate_size_for_package`: ignore an empty name,
otherwise increment the calculation counter and start the worker (here
sequentialized: the worker body runs on the incremented state). -/
def calculate_size_for_package (pkg_name : String) (r : MetaFilesResult)
    (s : AppState) : AppState :=
  if pkg_name = "" then s
  else calculate_size_worker pkg_name r
    (_adjust_ui_for_ongoing_calculations true s)

/-- A concrete coordinator state used to instantiate theorems. -/
def sampleBusyState : AppState where
  is_busy := true
  packages_data := [("pkgA", { name := "pkgA", version := "1.0" })]
  size_cache := [("pkgA", "1.0 MB")]
  active_size_calculations := 0
  ui_log_lines := []
  ui_busy := true
  total_size_label := ""
  row_updates := []
  disk_cache := [("pkgA", "1.0 MB")]
  commands_run := []
  load_packages_calls := 0
  spawned_workers := []

/-- A concrete idle coordinator state with one cached package. -/
def sampleIdleState : AppState where
  is_busy := false
  packages_data := [("pkgA", { name := "pkgA", version := "1.0" })]
  size_cache := [("pkgA", "1.0 MB")]
  active_size_calculations := 0
  ui_log_lines := []
  ui_busy := false
  total_size_label := ""
  row_updates := []
  disk_cache := [("pkgA", "1.0 MB")]
  commands_run := []
  load_packages_calls := 0
  spawned_workers := []

/-- A concrete state that is busy with an unrelated operation while one
size calculation is in flight. -/
def sampleUnrelatedBusyState : AppState where
  is_busy := true
  packages_data := [("pkgA", { name := "pkgA", version := "1.0" })]
  size_cache := []
  active_size_calculations := 1
  ui_log_lines := []
  ui_busy := true
  total_size_label := ""
  row_updates := []
  disk_cache := []
  commands_run := []
  load_packages_calls := 0
  spawned_workers := []

/-! ### Helper lemmas for the JSON codec and the dict model -/

theorem skipWs_cons_of_ws (c : Char) (cs : List Char) (h : isJsonWs c = true) :
    skipWs (c :: cs) = skipWs cs := by
  simp [skipWs, h]

theorem skipWs_cons_of_not_ws (c : Char) (cs : List Char) (h : isJsonWs c = false) :
    skipWs (c :: cs) = c :: cs := by
  simp [skipWs, h]

theorem skipWs_idem (cs : List Char) : skipWs (skipWs cs) = skipWs cs := by
  induction cs with
  | nil => rfl
  | cons c cs ih =>
      by_cases h : isJsonWs c
      · rw [skipWs_cons_of_ws c cs h, ih]
      · rw [skipWs_cons_of_not_ws c cs (by simpa using h),
          skipWs_cons_of_not_ws c cs (by simpa using h)]

theorem escChar_quote : escChar '"' = ['\\', '"'] := rfl

theorem escChar_backslash : escChar '\\' = ['\\', '\\'] := rfl

theorem escChar_plain (c : Char) (h32 : 32 ≤ c.toNat) (h126 : c.toNat ≤ 126)
    (hq : c ≠ '"') (hb : c ≠ '\\') : escChar c = [c] := by
  rw [escChar]
  rw [if_neg hb, if_neg hq]
  rw [if_neg (by rintro rfl; simp at h32), if_neg (by rintro rfl; simp at h32),
    if_neg (by rintro rfl; simp at h32), if_neg (by omega), if_neg (by omega),
    if_neg (by omega)]

theorem readStrBody_escChar_append (c : Char) (h32 : 32 ≤ c.toNat)
    (h126 : c.toNat ≤ 126) (tail : List Char) :
    readStrBody (escChar c ++ tail) =
      (readStrBody tail).map (fun p => (c :: p.1, p.2)) := by
  by_cases hq : c = '"'
  · subst hq
    rw [escChar_quote]
    show readStrBody ('\\' :: '"' :: tail) = _
    rw [readStrBody.eq_def]
    cases h : readStrBody tail with
    | none => simp [unescCh, h]
    | some p => simp [unescCh, h]
  · by_cases hb : c = '\\'
    · subst hb
      rw [escChar_backslash]
      show readStrBody ('\\' :: '\\' :: tail) = _
      rw [readStrBody.eq_def]
      cases h : readStrBody tail with
      | none => simp [unescCh, h]
      | some p => simp [unescCh, h]
    · rw [escChar_plain c h32 h126 hq hb]
      show readStrBody (c :: tail) = _
      rw [readStrBody.eq_def]
      cases h : readStrBody tail with
      | none => simp [unescCh, h, hq, hb]
      | some p => simp [unescCh, h, hq, hb]

theorem readStrBody_escString (l : List Char)
    (h : ∀ c ∈ l, 32 ≤ c.toNat ∧ c.toNat ≤ 126) (rest : List Char) :
    readStrBody (escString l ++ '"' :: rest) = some (l, rest) := by
  induction l with
  | nil =>
      show readStrBody ('"' :: rest) = some ([], rest)
      rw [readStrBody.eq_def]
      simp
  | cons c l ih =>
      have hc := h c (List.mem_cons_self c l)
      have he : escString (c :: l) = escChar c ++ escString l := rfl
      rw [he, List.append_assoc, readStrBody_escChar_append c hc.1 hc.2,
        ih (fun x hx => h x (List.mem_cons_of_mem _ hx))]
      rfl

theorem readJStr_quoteJson (s : String)
    (h : ∀ c ∈ s.data, 32 ≤ c.toNat ∧ c.toNat ≤ 126) (rest : List Char) :
    readJStr (quoteJson s ++ rest) = some (s, rest) := by
  obtain ⟨l⟩ := s
  show readJStr ('"' :: (escString l ++ ['"']) ++ rest) = _
  rw [List.cons_append, List.append_assoc, List.singleton_append]
  show (readStrBody (escString l ++ '"' :: rest)).map _ = _
  rw [readStrBody_escString l h rest]
  rfl

theorem optBind_some (a : α) (f : α → Option β) :
    (Bind.bind (some a) f : Option β) = f a := rfl

theorem skipWs_quoteJson_append (s : String) (rest : List Char) :
    skipWs (quoteJson s ++ rest) = quoteJson s ++ rest := by
  show skipWs ('"' :: (escString s.data ++ ['"']) ++ rest) = _
  rw [List.cons_append, skipWs_cons_of_not_ws _ _ (by decide)]
  simp [quoteJson, List.append_assoc]

theorem readMembers_one (k v : String)
    (hk : ∀ c ∈ k.data, 32 ≤ c.toNat ∧ c.toNat ≤ 126)
    (hv : ∀ c ∈ v.data, 32 ≤ c.toNat ∧ c.toNat ≤ 126)
    (f : Nat) (rest : List Char) :
    readMembers (f + 1) (memberChars k v ++ '\n' :: '}' :: rest) =
      some ([(k, v)], rest) := by
  rw [readMembers.eq_def]
  simp only [memberChars, List.cons_append, List.append_assoc]
  rw [skipWs_cons_of_ws _ _ (by decide), skipWs_cons_of_ws _ _ (by decide)]
  rw [skipWs_quoteJson_append, readJStr_quoteJson k hk]
  simp only [optBind_some]
  rw [skipWs_cons_of_not_ws _ _ (by decide)]
  simp only
  rw [skipWs_cons_of_ws _ _ (by decide), skipWs_quoteJson_append,
    readJStr_quoteJson v hv]
  simp only [optBind_some]
  rw [skipWs_cons_of_ws _ _ (by decide), skipWs_cons_of_not_ws _ _ (by decide)]
  rfl

theorem readMembers_ws_cons (f : Nat) (c : Char) (cs : List Char)
    (h : isJsonWs c = true) :
    readMembers f (c :: cs) = readMembers f cs := by
  cases f with
  | zero => rfl
  | succ f =>
      rw [readMembers.eq_def]
      conv_rhs => rw [readMembers.eq_def]
      simp only
      rw [skipWs_cons_of_ws c cs h]

theorem readMembers_skipWs (f : Nat) (cs : List Char) :
    readMembers f (skipWs cs) = readMembers f cs := by
  cases f with
  | zero => rfl
  | succ f =>
      rw [readMembers.eq_def]
      conv_rhs => rw [readMembers.eq_def]
      simp only
      rw [skipWs_idem]

theorem readMembers_step (k v : String)
    (hk : ∀ c ∈ k.data, 32 ≤ c.toNat ∧ c.toNat ≤ 126)
    (hv : ∀ c ∈ v.data, 32 ≤ c.toNat ∧ c.toNat ≤ 126)
    (f : Nat) (after : List Char) :
    readMembers (f + 1) (memberChars k v ++ ',' :: '\n' :: after) =
      Bind.bind (readMembers f after)
        (fun p => some ((k, v) :: p.1, p.2)) := by
  rw [readMembers.eq_def]
  simp only [memberChars, List.cons_append, List.append_assoc]
  rw [skipWs_cons_of_ws _ _ (by decide), skipWs_cons_of_ws _ _ (by decide)]
  rw [skipWs_quoteJson_append, readJStr_quoteJson k hk]
  simp only [optBind_some]
  rw [skipWs_cons_of_not_ws _ _ (by decide)]
  simp only
  rw [skipWs_cons_of_ws _ _ (by decide), skipWs_quoteJson_append,
    readJStr_quoteJson v hv]
  simp only [optBind_some]
  rw [skipWs_cons_of_not_ws _ _ (by decide)]
  simp only
  rw [readMembers_ws_cons f '\n' after (by decide)]

theorem readMembers_dumpMembers (m : List (String × String)) :
    ∀ fuel rest, m ≠ [] →
    (∀ p ∈ m, (∀ c ∈ p.1.data, 32 ≤ c.toNat ∧ c.toNat ≤ 126) ∧
              (∀ c ∈ p.2.data, 32 ≤ c.toNat ∧ c.toNat ≤ 126)) →
    m.length ≤ fuel →
    readMembers fuel (dumpMembers m ++ '\n' :: '}' :: rest) = some (m, rest) := by
  induction m with
  | nil => intro fuel rest h; exact absurd rfl h
  | cons p tl ih =>
      obtain ⟨k, v⟩ := p
      intro fuel rest _ hp hf
      obtain ⟨f, rfl⟩ : ∃ f, fuel = f + 1 :=
        ⟨fuel - 1, by simp at hf; omega⟩
      have hk := (hp (k, v) (List.mem_cons_self (k, v) tl)).1
      have hv := (hp (k, v) (List.mem_cons_self (k, v) tl)).2
      cases tl with
      | nil => exact readMembers_one k v hk hv f rest
      | cons q tl2 =>
          rw [show dumpMembers ((k, v) :: q :: tl2) =
              memberChars k v ++ ',' :: '\n' :: dumpMembers (q :: tl2) from rfl]
          simp only [List.append_assoc, List.cons_append]
          rw [readMembers_step k v hk hv f _]
          rw [ih f rest (by simp)
            (fun p hp2 => hp p (List.mem_cons_of_mem _ hp2))
            (by simp at hf ⊢; omega)]
          rfl

theorem dumpMembers_length (m : List (String × String)) :
    m.length ≤ (dumpMembers m).length := by
  induction m with
  | nil => simp [dumpMembers]
  | cons p tl ih =>
      obtain ⟨k, v⟩ := p
      cases tl with
      | nil => simp [dumpMembers, memberChars]
      | cons q tl2 =>
          rw [show dumpMembers ((k, v) :: q :: tl2) =
              memberChars k v ++ ',' :: '\n' :: dumpMembers (q :: tl2) from rfl]
          simp only [List.length_append, List.length_cons, memberChars]
          simp at ih ⊢
          omega

theorem lookup_eq_none_of_not_mem (l : List (String × α)) (k : String)
    (h : k ∉ l.map Prod.fst) : l.lookup k = none := by
  induction l with
  | nil => rfl
  | cons p tl ih =>
      simp only [List.map_cons, List.mem_cons, not_or] at h
      rw [List.lookup]
      have hbeq : (k == p.1) = false := by
        simp only [beq_eq_false_iff_ne, ne_eq]
        exact h.1
      rw [hbeq]
      exact ih h.2

theorem setKey_of_not_mem (l : List (String × α)) (k : String) (v : α)
    (h : k ∉ l.map Prod.fst) : setKey l k v = l ++ [(k, v)] := by
  rw [setKey, lookup_eq_none_of_not_mem l k h]
  rfl

theorem foldl_setKey_eq_append (m : List (String × String)) :
    ∀ acc : List (String × String), (((acc ++ m).map Prod.fst).Nodup) →
    m.foldl (fun acc p => setKey acc p.1 p.2) acc = acc ++ m := by
  induction m with
  | nil => intro acc _; simp
  | cons p tl ih =>
      intro acc h
      have hmem : p.1 ∉ acc.map Prod.fst := by
        intro hmem
        rw [List.map_append, List.nodup_append] at h
        exact h.2.2 hmem (by simp)
      rw [List.foldl_cons, setKey_of_not_mem acc p.1 p.2 hmem]
      rw [ih (acc ++ [p]) (by simpa using h)]
      simp

theorem dictFold_eq_self (m : List (String × String))
    (h : (m.map Prod.fst).Nodup) : dictFold m = m := by
  have := foldl_setKey_eq_append m [] (by simpa using h)
  simpa [dictFold] using this

theorem skipWs_head_dumpMembers (k v : String) (tl : List (String × String))
    (X : List Char) :
    (skipWs (dumpMembers ((k, v) :: tl) ++ X)).head? = some '"' := by
  cases tl with
  | nil =>
      show (skipWs (memberChars k v ++ X)).head? = some '"'
      simp only [memberChars, List.cons_append, List.append_assoc]
      rw [skipWs_cons_of_ws _ _ (by decide), skipWs_cons_of_ws _ _ (by decide),
        skipWs_quoteJson_append]
      rfl
  | cons q tl2 =>
      show (skipWs ((memberChars k v ++ ',' :: '\n' :: dumpMembers (q :: tl2)) ++ X)).head?
        = some '"'
      simp only [memberChars, List.cons_append, List.append_assoc]
      rw [skipWs_cons_of_ws _ _ (by decide), skipWs_cons_of_ws _ _ (by decide),
        skipWs_quoteJson_append]
      rfl

theorem readObjDoc_dump (m : List (String × String))
    (hp : ∀ p ∈ m, (∀ c ∈ p.1.data, 32 ≤ c.toNat ∧ c.toNat ≤ 126) ∧
                   (∀ c ∈ p.2.data, 32 ≤ c.toNat ∧ c.toNat ≤ 126))
    (hnd : (m.map Prod.fst).Nodup) :
    readObjDoc (dumpObjChars m) = some m := by
  cases m with
  | nil => rfl
  | cons p tl =>
      obtain ⟨k, v⟩ := p
      rw [show dumpObjChars ((k, v) :: tl) =
          '{' :: '\n' :: (dumpMembers ((k, v) :: tl) ++ '\n' :: ['}']) from rfl]
      rw [readObjDoc.eq_def]
      rw [skipWs_cons_of_not_ws _ _ (by decide)]
      simp only
      rw [skipWs_cons_of_ws _ _ (by decide)]
      rw [skipWs_head_dumpMembers]
      rw [if_neg (by decide)]
      rw [readMembers_skipWs]
      rw [readMembers_dumpMembers ((k, v) :: tl) _ [] (by simp) hp
        (by
          have := dumpMembers_length ((k, v) :: tl)
          simp only [List.length_cons, List.length_append] at this ⊢
          omega)]
      simp only
      rw [show skipWs ([] : List Char) = [] from rfl]
      simp only [List.isEmpty_nil, if_true]
      rw [dictFold_eq_self ((k, v) :: tl) hnd]


theorem printableAscii_iff (s : String) :
    printableAscii s = true ↔ ∀ c ∈ s.data, 32 ≤ c.toNat ∧ c.toNat ≤ 126 := by
  simp [printableAscii, List.all_eq_true]

/-- C9: round-trip of the size-cache store.  For every mapping whose keys
are distinct and whose keys and values are printable ASCII (which covers
every mapping the program writes: package names and formatted size
strings), loading a saved file recovers the mapping exactly, and saving
the loaded mapping reproduces the file content byte for byte; moreover
`load` returns the empty mapping, rather than raising, on an absent or
unreadable file (`none`) and on undecodable content. -/
theorem C9_size_cache_round_trip (m : List (String × String))
    (hnd : (m.map Prod.fst).Nodup)
    (hp : ∀ p ∈ m, printableAscii p.1 = true ∧ printableAscii p.2 = true) :
    load_size_cache (some (save_size_cache m)) = m ∧
    save_size_cache (load_size_cache (some (save_size_cache m))) = save_size_cache m ∧
    load_size_cache none = [] ∧
    (∀ content : String, readObjDoc content.data = none →
      load_size_cache (some content) = []) ∧
    load_size_cache (some "this is not json") = [] := by
  have hp2 : ∀ p ∈ m, (∀ c ∈ p.1.data, 32 ≤ c.toNat ∧ c.toNat ≤ 126) ∧
      (∀ c ∈ p.2.data, 32 ≤ c.toNat ∧ c.toNat ≤ 126) :=
    fun p hpm => ⟨(printableAscii_iff p.1).1 (hp p hpm).1,
      (printableAscii_iff p.2).1 (hp p hpm).2⟩
  have hload : load_size_cache (some (save_size_cache m)) = m := by
    show (readObjDoc (save_size_cache m).data).getD [] = m
    rw [show (save_size_cache m).data = dumpObjChars m from rfl,
      readObjDoc_dump m hp2 hnd]
    rfl
  refine ⟨hload, by rw [hload], rfl, ?_, by decide⟩
  intro content h
  show (readObjDoc content.data).getD [] = []
  rw [h]
  rfl

/-- Witness for C9 at a one-entry mapping. -/
theorem C9_size_cache_round_trip_witness :
    load_size_cache (some (save_size_cache [("pkgA", "1.0 MB")])) =
      [("pkgA", "1.0 MB")] :=
  (C9_size_cache_round_trip [("pkgA", "1.0 MB")] (by decide) (by decide)).1

theorem eraseKey_of_lookup_none (l : List (String × α)) (k : String)
    (h : l.lookup k = none) : eraseKey l k = l := by
  induction l with
  | nil => rfl
  | cons p tl ih =>
      by_cases hk : p.1 = k
      · simp [List.lookup, hk] at h
      · have hbeq : (k == p.1) = false := by
          simpa [beq_eq_false_iff_ne] using fun he => hk he.symm
        rw [List.lookup, hbeq] at h
        rw [eraseKey, List.filter_cons, if_pos (by simpa using hk)]
        rw [show List.filter (fun p => decide (p.1 ≠ k)) tl = eraseKey tl k from rfl,
          ih h]

theorem adjust_false_frame (s : AppState) :
    (_adjust_ui_for_ongoing_calculations false s).packages_data = s.packages_data ∧
    (_adjust_ui_for_ongoing_calculations false s).size_cache = s.size_cache ∧
    (_adjust_ui_for_ongoing_calculations false s).disk_cache = s.disk_cache ∧
    (_adjust_ui_for_ongoing_calculations false s).row_updates = s.row_updates ∧
    (_adjust_ui_for_ongoing_calculations false s).commands_run = s.commands_run ∧
    (_adjust_ui_for_ongoing_calculations false s).load_packages_calls =
      s.load_packages_calls ∧
    (_adjust_ui_for_ongoing_calculations false s).active_size_calculations =
      s.active_size_calculations - 1 ∧
    ∀ x ∈ s.ui_log_lines, x ∈ (_adjust_ui_for_ongoing_calculations false s).ui_log_lines := by
  rw [_adjust_ui_for_ongoing_calculations]
  simp only [Bool.false_eq_true, if_false]
  split_ifs with h
  · refine ⟨by simp [_end_operation, ui_log, _calculate_and_display_total_size,
        _ui_set_total_size_label],
      by simp [_end_operation, ui_log, _calculate_and_display_total_size,
        _ui_set_total_size_label],
      by simp [_end_operation, ui_log, _calculate_and_display_total_size,
        _ui_set_total_size_label],
      by simp [_end_operation, ui_log, _calculate_and_display_total_size,
        _ui_set_total_size_label],
      by simp [_end_operation, ui_log, _calculate_and_display_total_size,
        _ui_set_total_size_label],
      by simp [_end_operation, ui_log, _calculate_and_display_total_size,
        _ui_set_total_size_label],
      by simp [_end_operation, ui_log, _calculate_and_display_total_size,
        _ui_set_total_size_label],
      fun x hx => by
        simp [_end_operation, ui_log, _calculate_and_display_total_size,
          _ui_set_total_size_label, hx]⟩
  · simp

theorem foldl_log_is_busy (lines : List String) (s : AppState) :
    (lines.foldl (fun st line => ui_log line false st) s).is_busy = s.is_busy := by
  induction lines generalizing s with
  | nil => rfl
  | cons line tl ih => rw [List.foldl_cons]; exact ih (ui_log line false s)

theorem foldl_log_packages_data (lines : List String) (s : AppState) :
    (lines.foldl (fun st line => ui_log line false st) s).packages_data =
      s.packages_data := by
  induction lines generalizing s with
  | nil => rfl
  | cons line tl ih => rw [List.foldl_cons]; exact ih (ui_log line false s)

theorem foldl_log_size_cache (lines : List String) (s : AppState) :
    (lines.foldl (fun st line => ui_log line false st) s).size_cache =
      s.size_cache := by
  induction lines generalizing s with
  | nil => rfl
  | cons line tl ih => rw [List.foldl_cons]; exact ih (ui_log line false s)

theorem foldl_log_disk_cache (lines : List String) (s : AppState) :
    (lines.foldl (fun st line => ui_log line false st) s).disk_cache =
      s.disk_cache := by
  induction lines generalizing s with
  | nil => rfl
  | cons line tl ih => rw [List.foldl_cons]; exact ih (ui_log line false s)

theorem foldl_log_load_calls (lines : List String) (s : AppState) :
    (lines.foldl (fun st line => ui_log line false st) s).load_packages_calls =
      s.load_packages_calls := by
  induction lines generalizing s with
  | nil => rfl
  | cons line tl ih => rw [List.foldl_cons]; exact ih (ui_log line false s)

theorem run_command_ok_fst (command_list : List String) (rc : Int)
    (lines : List String) (s : AppState) :
    (run_command command_list (ProcResult.ok rc lines) s).1 = (rc, "") := rfl

theorem run_command_ok_packages (command_list : List String) (rc : Int)
    (lines : List String) (s : AppState) :
    (run_command command_list (ProcResult.ok rc lines) s).2.packages_data =
      s.packages_data :=
  foldl_log_packages_data lines _

theorem run_command_ok_size_cache (command_list : List String) (rc : Int)
    (lines : List String) (s : AppState) :
    (run_command command_list (ProcResult.ok rc lines) s).2.size_cache =
      s.size_cache :=
  foldl_log_size_cache lines _

theorem run_command_ok_disk_cache (command_list : List String) (rc : Int)
    (lines : List String) (s : AppState) :
    (run_command command_list (ProcResult.ok rc lines) s).2.disk_cache =
      s.disk_cache :=
  foldl_log_disk_cache lines _

theorem run_command_ok_load_calls (command_list : List String) (rc : Int)
    (lines : List String) (s : AppState) :
    (run_command command_list (ProcResult.ok rc lines) s).2.load_packages_calls =
      s.load_packages_calls :=
  foldl_log_load_calls lines _

theorem run_command_ok_is_busy (command_list : List String) (rc : Int)
    (lines : List String) (s : AppState) :
    (run_command command_list (ProcResult.ok rc lines) s).2.is_busy = s.is_busy :=
  foldl_log_is_busy lines _

theorem run_pip_threaded_failure (command_list : List String)
    (operation_name : String) (has_callback : Bool) (rc : Int)
    (lines : List String) (s : AppState) (hb : s.is_busy = false)
    (hrc : ¬rc = 0) :
    (_run_pip_command_threaded command_list operation_name has_callback
      (ProcResult.ok rc lines) s).packages_data = s.packages_data ∧
    (_run_pip_command_threaded command_list operation_name has_callback
      (ProcResult.ok rc lines) s).size_cache = s.size_cache ∧
    (_run_pip_command_threaded command_list operation_name has_callback
      (ProcResult.ok rc lines) s).disk_cache = s.disk_cache ∧
    (_run_pip_command_threaded command_list operation_name has_callback
      (ProcResult.ok rc lines) s).load_packages_calls = s.load_packages_calls ∧
    (_run_pip_command_threaded command_list operation_name has_callback
      (ProcResult.ok rc lines) s).is_busy = false := by
  rw [_run_pip_command_threaded, _begin_operation, if_neg (by simp [hb])]
  simp only
  rw [run_pip_worker]
  simp only [run_command_ok_fst]
  rw [if_neg hrc]
  simp only [_end_operation, ui_log, run_command_ok_packages,
    run_command_ok_size_cache, run_command_ok_disk_cache,
    run_command_ok_load_calls, run_command_ok_is_busy]
  split_ifs <;> simp [ui_log]

/-- C2: implicit-cancellation safeguard in the size-calculation worker.
When the package is absent from the table at write-back time, the
write-back is skipped — the table, the in-memory cache and the cache file
are unchanged — the cancellation message is logged, and the counter is
still decremented; when it is present, the record's size fields, the
cache and the cache file are updated and the row notified. -/
theorem C2_size_calc_cancellation (s : AppState) (pkg_name : String)
    (r : MetaFilesResult) :
    (s.packages_data.lookup pkg_name = none →
      (calculate_size_worker pkg_name r s).packages_data = s.packages_data ∧
      (calculate_size_worker pkg_name r s).size_cache = s.size_cache ∧
      (calculate_size_worker pkg_name r s).disk_cache = s.disk_cache ∧
      ("Calculation for '" ++ pkg_name ++ "' cancelled (package removed).", false) ∈
        (calculate_size_worker pkg_name r s).ui_log_lines ∧
      (calculate_size_worker pkg_name r s).active_size_calculations =
        s.active_size_calculations - 1) ∧
    (∀ pkg, s.packages_data.lookup pkg_name = some pkg →
      (calculate_size_worker pkg_name r s).size_cache =
        setKey s.size_cache pkg_name (get_package_size r).2 ∧
      (calculate_size_worker pkg_name r s).disk_cache =
        setKey s.size_cache pkg_name (get_package_size r).2 ∧
      (calculate_size_worker pkg_name r s).packages_data =
        s.packages_data.map (fun p =>
          if p.1 = pkg_name then
            (p.1, { p.2 with size_bytes := (get_package_size r).1,
                             size_str := (get_package_size r).2 })
          else p) ∧
      pkg_name ∈ (calculate_size_worker pkg_name r s).row_updates ∧
      (calculate_size_worker pkg_name r s).active_size_calculations =
        s.active_size_calculations - 1) := by
  constructor
  · intro h
    rw [calculate_size_worker]
    simp only [ui_log, h]
    have hf := adjust_false_frame
      (ui_log ("Calculation for '" ++ pkg_name ++ "' cancelled (package removed).")
        false (ui_log ("Calculating size for '" ++ pkg_name ++ "'...") false s))
    simp only [ui_log] at hf
    refine ⟨hf.1, hf.2.1, hf.2.2.1, ?_, hf.2.2.2.2.2.2.1⟩
    exact hf.2.2.2.2.2.2.2 _ (by simp)
  · intro pkg h
    rw [calculate_size_worker]
    simp only [ui_log, h]
    refine ⟨?_, ?_, ?_, ?_, ?_⟩ <;>
      simp [ui_log, _ui_update_package_view,
        _adjust_ui_for_ongoing_calculations, _end_operation,
        _calculate_and_display_total_size, _ui_set_total_size_label] <;>
      split_ifs <;>
      simp

/-- Witness for C2's cancellation branch at a state lacking the package. -/
theorem C2_size_calc_cancellation_witness :
    (calculate_size_worker "pkgB" MetaFilesResult.notFound sampleBusyState).packages_data =
      sampleBusyState.packages_data ∧
    (calculate_size_worker "pkgB" MetaFilesResult.notFound sampleBusyState).size_cache =
      sampleBusyState.size_cache ∧
    (calculate_size_worker "pkgB" MetaFilesResult.notFound
        sampleBusyState).active_size_calculations =
      sampleBusyState.active_size_calculations - 1 := by
  have h := (C2_size_calc_cancellation sampleBusyState "pkgB"
    MetaFilesResult.notFound).1 (by decide)
  exact ⟨h.1, h.2.1, h.2.2.2.2⟩

theorem run_pip_threaded_busy (command_list : List String)
    (operation_name : String) (has_callback : Bool) (r : ProcResult)
    (s : AppState) (hb : s.is_busy = true) :
    _run_pip_command_threaded command_list operation_name has_callback r s =
      ui_log "Operation already in progress. Please wait." false s := by
  rw [_run_pip_command_threaded, _begin_operation, if_pos hb]

theorem uninstall_cache_invalidate_projs (pkg_name : String) (s : AppState) :
    (uninstall_cache_invalidate pkg_name s).is_busy = s.is_busy ∧
    (uninstall_cache_invalidate pkg_name s).packages_data = s.packages_data ∧
    (uninstall_cache_invalidate pkg_name s).load_packages_calls =
      s.load_packages_calls ∧
    (uninstall_cache_invalidate pkg_name s).commands_run = s.commands_run ∧
    (uninstall_cache_invalidate pkg_name s).size_cache =
      eraseKey s.size_cache pkg_name ∧
    ((s.size_cache.lookup pkg_name).isSome →
      (uninstall_cache_invalidate pkg_name s).disk_cache =
        eraseKey s.size_cache pkg_name) := by
  rw [uninstall_cache_invalidate]
  split_ifs with h
  · exact ⟨rfl, rfl, rfl, rfl, rfl, fun _ => rfl⟩
  · refine ⟨rfl, rfl, rfl, rfl, ?_, fun hs => absurd hs h⟩
    exact (eraseKey_of_lookup_none s.size_cache pkg_name
      (Option.not_isSome_iff_eq_none.mp h)).symm

/-- C6: uninstall ordering and failure atomicity.  The cache-invalidation
prefix runs before the command path is entered at all (the uninstall is
literally the command runner applied to the invalidated state), removing
the entry from the in-memory cache and — when the entry existed —
persisting the shrunken cache to disk; and when the uninstall command then
exits non-zero, the package table is unchanged, `load_packages` is never
entered (no refresh), the Busy flag ends cleared, and the cache stays
invalidated. -/
theorem C6_uninstall_ordering_and_failure (s : AppState) (pkg_name : String)
    (rc : Int) (lines : List String) :
    (∀ r, uninstall_package pkg_name r s =
      _run_pip_command_threaded ["pip", "uninstall", "-y", pkg_name]
        ("Uninstall '" ++ pkg_name ++ "'") true r
        (uninstall_cache_invalidate pkg_name s)) ∧
    (uninstall_cache_invalidate pkg_name s).size_cache =
      eraseKey s.size_cache pkg_name ∧
    ((s.size_cache.lookup pkg_name).isSome →
      (uninstall_cache_invalidate pkg_name s).disk_cache =
        eraseKey s.size_cache pkg_name) ∧
    (s.is_busy = false → ¬rc = 0 →
      (uninstall_package pkg_name (ProcResult.ok rc lines) s).packages_data =
        s.packages_data ∧
      (uninstall_package pkg_name (ProcResult.ok rc lines) s).load_packages_calls =
        s.load_packages_calls ∧
      (uninstall_package pkg_name (ProcResult.ok rc lines) s).is_busy = false ∧
      (uninstall_package pkg_name (ProcResult.ok rc lines) s).size_cache =
        eraseKey s.size_cache pkg_name ∧
      ((s.size_cache.lookup pkg_name).isSome →
        (uninstall_package pkg_name (ProcResult.ok rc lines) s).disk_cache =
          eraseKey s.size_cache pkg_name)) := by
  obtain ⟨hb', hpd, hlc, _hcr, hsc, hdc⟩ := uninstall_cache_invalidate_projs pkg_name s
  refine ⟨fun r => rfl, hsc, hdc, ?_⟩
  intro hbusy hrc
  have hfail := run_pip_threaded_failure ["pip", "uninstall", "-y", pkg_name]
    ("Uninstall '" ++ pkg_name ++ "'") true rc lines
    (uninstall_cache_invalidate pkg_name s) (by rw [hb']; exact hbusy) hrc
  refine ⟨?_, ?_, ?_, ?_, ?_⟩
  · rw [uninstall_package, hfail.1, hpd]
  · rw [uninstall_package, hfail.2.2.2.1, hlc]
  · rw [uninstall_package]; exact hfail.2.2.2.2
  · rw [uninstall_package, hfail.2.1, hsc]
  · intro hs; rw [uninstall_package, hfail.2.2.1, hdc hs]

/-- Witness for C6's failure path at a concrete idle state with a cached
entry: the command exits 1, the table is untouched, busy ends false, and
the persisted cache has already lost the entry. -/
theorem C6_uninstall_ordering_and_failure_witness :
    (uninstall_package "pkgA" (ProcResult.ok 1 []) sampleIdleState).packages_data =
      sampleIdleState.packages_data ∧
    (uninstall_package "pkgA" (ProcResult.ok 1 []) sampleIdleState).load_packages_calls =
      sampleIdleState.load_packages_calls ∧
    (uninstall_package "pkgA" (ProcResult.ok 1 []) sampleIdleState).is_busy = false ∧
    (uninstall_package "pkgA" (ProcResult.ok 1 []) sampleIdleState).disk_cache =
      eraseKey sampleIdleState.size_cache "pkgA" := by
  have h := (C6_uninstall_ordering_and_failure sampleIdleState "pkgA" 1 []).2.2.2
    rfl (by decide)
  exact ⟨h.1, h.2.1, h.2.2.1, h.2.2.2.2 (by decide)⟩

/-- C10: both `update_package` and `uninstall_package` delete the
in-memory cache entry (and, for uninstall, persist the cache) before the
single-flight busy check: when the coordinator is already busy, the
rejected call runs no command (the command trace is unchanged) and leaves
the busy flag set, yet the cache entry is already gone — and for
uninstall the on-disk cache has already been rewritten. -/
theorem C10_invalidate_before_busy_check (s : AppState) (pkg_name : String)
    (r : ProcResult) (hb : s.is_busy = true) :
    (update_package pkg_name r s).size_cache = eraseKey s.size_cache pkg_name ∧
    (update_package pkg_name r s).disk_cache = s.disk_cache ∧
    (update_package pkg_name r s).is_busy = true ∧
    (update_package pkg_name r s).commands_run = s.commands_run ∧
    (uninstall_package pkg_name r s).size_cache = eraseKey s.size_cache pkg_name ∧
    ((s.size_cache.lookup pkg_name).isSome →
      (uninstall_package pkg_name r s).disk_cache =
        eraseKey s.size_cache pkg_name) ∧
    (uninstall_package pkg_name r s).is_busy = true ∧
    (uninstall_package pkg_name r s).commands_run = s.commands_run := by
  obtain ⟨hb', _hpd, _hlc, hcr, hsc, hdc⟩ := uninstall_cache_invalidate_projs pkg_name s
  have hu : uninstall_package pkg_name r s =
      ui_log "Operation already in progress. Please wait." false
        (uninstall_cache_invalidate pkg_name s) := by
    rw [uninstall_package,
      run_pip_threaded_busy _ _ _ _ _ (by rw [hb']; exact hb)]
  refine ⟨?_, ?_, ?_, ?_, ?_, ?_, ?_, ?_⟩
  · rw [update_package]
    split_ifs with h
    · rw [run_pip_threaded_busy]
      · rfl
      · exact hb
    · rw [run_pip_threaded_busy _ _ _ _ _ hb]
      show s.size_cache = eraseKey s.size_cache pkg_name
      exact (eraseKey_of_lookup_none s.size_cache pkg_name
        (Option.not_isSome_iff_eq_none.mp h)).symm
  · rw [update_package]
    split_ifs with h
    · rw [run_pip_threaded_busy]
      · rfl
      · exact hb
    · rw [run_pip_threaded_busy _ _ _ _ _ hb]
      rfl
  · rw [update_package]
    split_ifs with h
    · rw [run_pip_threaded_busy]
      · exact hb
      · exact hb
    · rw [run_pip_threaded_busy _ _ _ _ _ hb]
      exact hb
  · rw [update_package]
    split_ifs with h
    · rw [run_pip_threaded_busy]
      · rfl
      · exact hb
    · rw [run_pip_threaded_busy _ _ _ _ _ hb]
      rfl
  · rw [hu]
    show (uninstall_cache_invalidate pkg_name s).size_cache = _
    exact hsc
  · intro hs
    rw [hu]
    show (uninstall_cache_invalidate pkg_name s).disk_cache = _
    exact hdc hs
  · rw [hu]
    show (uninstall_cache_invalidate pkg_name s).is_busy = true
    rw [hb']; exact hb
  · rw [hu]
    show (uninstall_cache_invalidate pkg_name s).commands_run = s.commands_run
    exact hcr

/-- Witness for C10 at a concrete busy state with a cached entry. -/
theorem C10_invalidate_before_busy_check_witness :
    (update_package "pkgA" (ProcResult.ok 0 []) sampleBusyState).size_cache =
      eraseKey sampleBusyState.size_cache "pkgA" ∧
    (update_package "pkgA" (ProcResult.ok 0 []) sampleBusyState).commands_run =
      sampleBusyState.commands_run ∧
    (uninstall_package "pkgA" (ProcResult.ok 0 []) sampleBusyState).disk_cache =
      eraseKey sampleBusyState.size_cache "pkgA" ∧
    (uninstall_package "pkgA" (ProcResult.ok 0 []) sampleBusyState).is_busy = true := by
  have h := C10_invalidate_before_busy_check sampleBusyState "pkgA"
    (ProcResult.ok 0 []) rfl
  exact ⟨h.1, h.2.2.2.1, h.2.2.2.2.2.1 (by decide), h.2.2.2.2.2.2.1⟩

/-- C3 counterexample: from a state that is busy with an unrelated
operation (`sampleBusyState`, no refresh in flight) and has a zero
calculation counter, a standalone `calculate_size_for_package` call whose
counter decrement reaches 0 clears the Busy flag anyway —
`_adjust_ui_for_ongoing_calculations` calls `_end_operation()`
unconditionally, so the claim's "must not clear the Busy flag of an
unrelated in-flight operation" is false on the code. -/
theorem C3_counterexample :
    sampleBusyState.is_busy = true ∧
    (calculate_size_for_package "pkgA" (MetaFilesResult.filesOf [(true, 500)])
      sampleBusyState).is_busy = false := by
  exact ⟨rfl, by decide⟩

/-- C3 amended: incrementing the counter from 0 to 1 sets the
"Calculating…" display and leaves the Busy flag alone; decrementing it to
0 computes and displays the final total size, logs the completion line,
and *unconditionally* performs the Busy→Idle transition (`_end_operation`)
— regardless of which operation drove the calculations (in the program as
wired, `calculate_size_for_package` is only started by the initial
refresh's size pass, so the unconditional clear coincides with ending
that refresh); a decrement that does not reach 0 changes neither the
Busy flag, nor the label, nor the log. -/
theorem C3_counter_completion_amended (s : AppState) :
    (_adjust_ui_for_ongoing_calculations true s).active_size_calculations =
      s.active_size_calculations + 1 ∧
    (s.active_size_calculations + 1 = 1 →
      (_adjust_ui_for_ongoing_calculations true s).total_size_label =
        "Total Size: Calculating...") ∧
    (_adjust_ui_for_ongoing_calculations true s).is_busy = s.is_busy ∧
    (_adjust_ui_for_ongoing_calculations false s).active_size_calculations =
      s.active_size_calculations - 1 ∧
    (s.active_size_calculations - 1 = 0 →
      (_adjust_ui_for_ongoing_calculations false s).total_size_label =
        total_size_display
          (s.packages_data.foldl (fun a p => a + p.2.size_bytes) 0) ∧
      ("All package sizes calculated and updated.", false) ∈
        (_adjust_ui_for_ongoing_calculations false s).ui_log_lines ∧
      (_adjust_ui_for_ongoing_calculations false s).is_busy = false) ∧
    (s.active_size_calculations - 1 ≠ 0 →
      (_adjust_ui_for_ongoing_calculations false s).is_busy = s.is_busy ∧
      (_adjust_ui_for_ongoing_calculations false s).total_size_label =
        s.total_size_label ∧
      (_adjust_ui_for_ongoing_calculations false s).ui_log_lines =
        s.ui_log_lines) := by
  refine ⟨?_, ?_, ?_, ?_, ?_, ?_⟩
  · rw [_adjust_ui_for_ongoing_calculations]
    simp only [if_true]
    split_ifs <;> rfl
  · intro h
    rw [_adjust_ui_for_ongoing_calculations]
    simp only [if_true]
    rw [if_pos h]
    rfl
  · rw [_adjust_ui_for_ongoing_calculations]
    simp only [if_true]
    split_ifs <;> rfl
  · exact (adjust_false_frame s).2.2.2.2.2.2.1
  · intro h
    rw [_adjust_ui_for_ongoing_calculations]
    simp only [Bool.false_eq_true, if_false]
    rw [if_pos h]
    refine ⟨rfl, ?_, rfl⟩
    simp [_end_operation, ui_log, _calculate_and_display_total_size,
      _ui_set_total_size_label]
  · intro h
    rw [_adjust_ui_for_ongoing_calculations]
    simp only [Bool.false_eq_true, if_false]
    rw [if_neg h]
    exact ⟨rfl, rfl, rfl⟩

/-- Witness for C3 amended: a decrement reaching 0 at a concrete state
busy with an unrelated operation still reports completion and clears the
Busy flag. -/
theorem C3_counter_completion_amended_witness :
    ("All package sizes calculated and updated.", false) ∈
      (_adjust_ui_for_ongoing_calculations false sampleUnrelatedBusyState).ui_log_lines ∧
    (_adjust_ui_for_ongoing_calculations false sampleUnrelatedBusyState).is_busy =
      false := by
  have h := (C3_counter_completion_amended sampleUnrelatedBusyState).2.2.2.2.1
    (by decide)
  exact ⟨h.2.1, h.2.2⟩

/-- C1: single-flight busy gating.  A `_begin_operation` call while the
busy flag is set returns `false`, logs the "already in progress" message,
and leaves the busy flag and the package table unchanged; when the flag
is clear it sets the flag and returns `true`; `_end_operation` clears the
flag. -/
theorem C1_single_flight_busy_gating (s : AppState) (operation_name : String)
    (is_header : Bool) :
    (s.is_busy = true →
      (_begin_operation operation_name is_header s).1 = false ∧
      (_begin_operation operation_name is_header s).2.is_busy = s.is_busy ∧
      (_begin_operation operation_name is_header s).2.packages_data = s.packages_data ∧
      (_begin_operation operation_name is_header s).2.ui_log_lines =
        s.ui_log_lines ++ [("Operation already in progress. Please wait.", false)]) ∧
    (s.is_busy = false →
      (_begin_operation operation_name is_header s).1 = true ∧
      (_begin_operation operation_name is_header s).2.is_busy = true) ∧
    (_end_operation s).is_busy = false := by
  refine ⟨fun h => ?_, fun h => ?_, rfl⟩
  · simp [_begin_operation, h, ui_log]
  · simp only [_begin_operation, h, Bool.false_eq_true, if_false]
    refine ⟨trivial, ?_⟩
    split <;> simp [ui_log]

/-- Witness for C1 at a concrete busy state. -/
theorem C1_single_flight_busy_gating_witness :
    (_begin_operation "Refreshing package list" true sampleBusyState).1 = false ∧
    (_end_operation sampleBusyState).is_busy = false := by
  have h := C1_single_flight_busy_gating sampleBusyState "Refreshing package list" true
  exact ⟨(h.1 rfl).1, h.2.2⟩

/-- C7: `get_package_size` returns the `(0, "Not Found")` sentinel when
the package metadata cannot be located, the `(0, "Error")` sentinel on
any other failure, and in every case some `(bytes, string)` pair — it is
a total function of the metadata outcome, never a raised exception. -/
theorem C7_package_size_sentinels :
    get_package_size MetaFilesResult.notFound = (0, "Not Found") ∧
    get_package_size MetaFilesResult.exc = (0, "Error") ∧
    ∀ r, ∃ size_bytes size_str, get_package_size r = (size_bytes, size_str) :=
  ⟨rfl, rfl, fun _ => ⟨_, _, rfl⟩⟩

/-- C8: the per-package size formatter on the four specified inputs, and
its general tier behaviour: whole bytes with unit B below 1024; one
decimal digit of kilobytes below 1024² (the printed tenths-of-KB value is
the correctly rounded one: `(10a+b)·1024` within 512 of `10n`); two
decimal digits of megabytes below 1024²·999; two decimal digits of
gigabytes above. -/
theorem C8_size_formatting :
    format_package_size 0 = "0 B" ∧
    format_package_size 1536 = "1.5 KB" ∧
    format_package_size 2097152 = "2.00 MB" ∧
    format_package_size 1073741824 = "1.00 GB" ∧
    (∀ n, n < 1024 → format_package_size n = toString n ++ " B") ∧
    (∀ n, 1024 ≤ n → n < 1024 ^ 2 → ∃ a b : Nat, b < 10 ∧
      format_package_size n = toString a ++ "." ++ toString b ++ " KB" ∧
      (toString b).length = 1 ∧
      (10 * a + b) * 1024 ≤ 10 * n + 512 ∧ 10 * n ≤ (10 * a + b) * 1024 + 512) ∧
    (∀ n, 1024 ^ 2 ≤ n → n < 1024 ^ 2 * 999 → ∃ a b : Nat, b < 100 ∧
      format_package_size n = toString a ++ "." ++ twoDec b ++ " MB" ∧
      (twoDec b).length = 2 ∧
      (100 * a + b) * 1024 ^ 2 ≤ 100 * n + 524288 ∧
      100 * n ≤ (100 * a + b) * 1024 ^ 2 + 524288) ∧
    (∀ n, 1024 ^ 2 * 999 ≤ n → ∃ a b : Nat, b < 100 ∧
      format_package_size n = toString a ++ "." ++ twoDec b ++ " GB" ∧
      (twoDec b).length = 2 ∧
      (100 * a + b) * 1024 ^ 3 ≤ 100 * n + 536870912 ∧
      100 * n ≤ (100 * a + b) * 1024 ^ 3 + 536870912) := by
  refine ⟨by decide, by decide, by decide, by decide, ?_, ?_, ?_, ?_⟩
  · intro n h
    by_cases h0 : n = 0
    · subst h0; decide
    · rw [format_package_size, if_neg h0, if_pos h]
  · intro n h1 h2
    refine ⟨rne (n * 10) 1024 / 10, rne (n * 10) 1024 % 10, by omega, ?_, ?_, ?_, ?_⟩
    · rw [format_package_size, if_neg (by omega), if_neg (by omega), if_pos h2]
    · have hb : rne (n * 10) 1024 % 10 < 10 := by omega
      revert hb
      have : ∀ b < 10, (toString b).length = 1 := by decide
      exact this _
    · unfold rne; simp only; split_ifs <;> omega
    · unfold rne; simp only; split_ifs <;> omega
  · intro n h1 h2
    refine ⟨rne (n * 100) (1024 ^ 2) / 100, rne (n * 100) (1024 ^ 2) % 100,
      by omega, ?_, ?_, ?_, ?_⟩
    · rw [format_package_size, if_neg (by omega), if_neg (by omega),
        if_neg (by omega), if_pos h2]
    · have hb : rne (n * 100) (1024 ^ 2) % 100 < 100 := by omega
      revert hb
      have : ∀ b < 100, (twoDec b).length = 2 := by decide
      exact this _
    · unfold rne; simp only; split_ifs <;> omega
    · unfold rne; simp only; split_ifs <;> omega
  · intro n h1
    refine ⟨rne (n * 100) (1024 ^ 3) / 100, rne (n * 100) (1024 ^ 3) % 100,
      by omega, ?_, ?_, ?_, ?_⟩
    · rw [format_package_size, if_neg (by omega), if_neg (by omega),
        if_neg (by omega), if_neg (by omega)]
    · have hb : rne (n * 100) (1024 ^ 3) % 100 < 100 := by omega
      revert hb
      have : ∀ b < 100, (twoDec b).length = 2 := by decide
      exact this _
    · unfold rne; simp only; split_ifs <;> omega
    · unfold rne; simp only; split_ifs <;> omega

/-- C4 counterexample: `get_local_packages` on a missing external tool
propagates the raw `FileNotFoundError` to its caller (there is no
`try`/`except` around the `check=True` invocation), contradicting the
claim that no Gateway operation lets a failure escape. -/
theorem C4_counterexample :
    get_local_packages RunResult.fileNotFound = Except.error PyExc.fileNotFound := rfl

/-- C4 amended: the Gateway converts failures into typed results or
sentinel values in its other operations (`run_command` returns the `-1`
sentinel on a missing executable or any other exception,
`get_outdated_packages` and `check_dependencies` always return a value),
but `get_local_packages` is the exception to the policy: it propagates
`FileNotFoundError` when the tool is missing, `CalledProcessError` when
the tool exits non-zero (`check=True`), and `JSONDecodeError` when the
output cannot be parsed; its caller (`_initial_load_worker`) is the one
that catches these. -/
theorem C4_gateway_containment_amended :
    get_local_packages RunResult.fileNotFound = Except.error PyExc.fileNotFound ∧
    (∀ rc out, rc ≠ 0 → get_local_packages (RunResult.ok rc out) =
      Except.error (PyExc.calledProcessError rc)) ∧
    (∀ out, readArrDoc (if out = "" then "[]" else out) = none →
      get_local_packages (RunResult.ok 0 out) = Except.error PyExc.jsonDecodeError) ∧
    (∀ command_list s, (run_command command_list ProcResult.fileNotFound s).1.1 = -1) ∧
    (∀ command_list e s, (run_command command_list (ProcResult.exc e) s).1.1 = -1) ∧
    (∀ has_internet r, ∃ p, get_outdated_packages has_internet r = p) ∧
    (∀ r, ∃ p, check_dependencies r = p) := by
  refine ⟨rfl, ?_, ?_, fun _ _ => rfl, fun _ _ _ => rfl,
    fun _ _ => ⟨_, rfl⟩, fun _ => ⟨_, rfl⟩⟩
  · intro rc out h
    rw [get_local_packages, if_pos h]
  · intro out h
    rw [get_local_packages, if_neg (by omega), h]

/-- Witness for C4 amended: a non-zero exit escapes as `CalledProcessError`. -/
theorem C4_gateway_containment_amended_witness :
    get_local_packages (RunResult.ok 1 "") =
      Except.error (PyExc.calledProcessError 1) :=
  C4_gateway_containment_amended.2.1 1 "" (by decide)

/-- C5 counterexample: with the network reachable and the tool exiting
with code 1, `get_outdated_packages` returns the empty mapping with *no*
status message at all (with `check=False` a non-zero exit raises nothing
and the success guard is silently skipped), contradicting the claim that
a non-zero exit yields a NetworkError status with detail text. -/
theorem C5_counterexample :
    (get_outdated_packages true (RunResult.ok 1 "[]")).1 = ([], none) := rfl

/-- C5 amended: `get_outdated_packages` is total (never raises); a failed
reachability probe short-circuits to the offline status without invoking
the tool; a timeout yields the network-timeout status; any exception
raised inside the invocation (including unparseable output) yields a
network-error status with detail text; but a tool exit with non-zero code
(or empty output) yields the empty mapping with no status,
indistinguishable from "no outdated packages"; on success the
name→latest-version mapping is returned with no status. -/
theorem C5_outdated_status_amended :
    (∀ r, get_outdated_packages false r =
      (([], some "Offline: Skipping check for outdated packages."), false)) ∧
    get_outdated_packages true RunResult.timeout =
      (([], some "Network Timeout: Could not check for updates."), true) ∧
    (∀ e, get_outdated_packages true (RunResult.exc e) =
      (([], some ("Network Error: Could not fetch updates. Details: " ++ e)), true)) ∧
    (∀ out, out ≠ "" → readArrDoc out = none →
      get_outdated_packages true (RunResult.ok 0 out) =
        (([], some ("Network Error: Could not fetch updates. Details: " ++
          "JSONDecodeError")), true)) ∧
    (∀ rc out, rc ≠ 0 →
      get_outdated_packages true (RunResult.ok rc out) = (([], none), true)) ∧
    (∀ out objs pairs, out ≠ "" → readArrDoc out = some objs →
      outdatedPairs objs = some pairs →
      get_outdated_packages true (RunResult.ok 0 out) = ((dictFold pairs, none), true)) ∧
    (∀ has_internet r, ∃ p, get_outdated_packages has_internet r = p) := by
  refine ⟨fun r => by cases r <;> rfl, rfl, fun _ => rfl, ?_, ?_, ?_,
    fun _ _ => ⟨_, rfl⟩⟩
  · intro out hne h
    rw [get_outdated_packages]
    simp only [Bool.not_true, Bool.false_eq_true, if_false, if_neg hne, h]
    rw [if_pos ⟨trivial, hne⟩]
  · intro rc out h
    rw [get_outdated_packages]
    simp only [Bool.not_true, Bool.false_eq_true, if_false]
    rw [if_neg (by simp [h])]
  · intro out objs pairs hne h1 h2
    rw [get_outdated_packages]
    simp only [Bool.not_true, Bool.false_eq_true, if_false, if_neg hne, h1, h2]
    rw [if_pos ⟨trivial, hne⟩]

/-- Witness for C5 amended: non-zero exit at concrete input. -/
theorem C5_outdated_status_amended_witness :
    get_outdated_packages true (RunResult.ok 1 "oops") = (([], none), true) :=
  C5_outdated_status_amended.2.2.2.2.1 1 "oops" (by decide)

/-- Witness for C8's kilobyte tier at the concrete input 1536. -/
theorem C8_size_formatting_witness : ∃ a b : Nat, b < 10 ∧
    format_package_size 1536 = toString a ++ "." ++ toString b ++ " KB" ∧
    (toString b).length = 1 ∧
    (10 * a + b) * 1024 ≤ 10 * 1536 + 512 ∧
    10 * 1536 ≤ (10 * a + b) * 1024 + 512 :=
  C8_size_formatting.2.2.2.2.2.1 1536 (by decide) (by decide)

end PipMan
